import Mathlib

/-!
Verification of the FX30 grain-match plugin's grain-pattern synthesis core
(`src/fx30-grain-match-plugin.py`) against its specification.

The core under study is:
  * `GRAIN_PARAMETERS` (lines 35-60): the ISO → parameter-tuple table;
  * `FX30GrainPattern` (lines 100-127): `__init__` resolves the tuple via
    `GRAIN_PARAMETERS.get(iso, GRAIN_PARAMETERS["800"])`, and
    `generate_pattern(width, height)` seeds numpy's process-wide generator
    with `np.random.seed(self.seed)`, draws four `height × width` blocks of
    `np.random.normal(0, 1, ...)` samples in the fixed order luma, red,
    green, blue, scales them, and returns the bundle.

Modelling choices (shallow embedding):
  * Real values are `ℚ` (the claims are about exact scaling structure, not
    floating-point rounding).
  * numpy's process-wide legacy generator is modelled as an explicit state
    `NpState` = (current seed value, position in the value stream);
    `np.random.seed` replaces that state, and each `np.random.normal` draw
    reads consecutive stream positions and advances the position.  The
    Gaussian distribution itself is abstracted: the stream is an arbitrary
    but fixed deterministic function `stdNormal` of (seed, position) with
    every value nonzero, matching the almost-sure behaviour of a continuous
    distribution.  Every structural property at stake — determinism, fixed
    consumption order, reseeding, independence of the four blocks, scaling —
    is preserved exactly.
  * `np.random.seed` follows numpy's documented legacy contract: it accepts
    integer seeds in `[0, 2^32 - 1]`, raises `ValueError` for integers
    outside that range, and raises `TypeError` for non-integral numeric
    input (legacy seeding applies `operator.index`, then a safe cast, to
    the seed).  `np.random.normal` raises `ValueError` ("negative
    dimensions are not allowed") when a requested dimension is negative.
    These error outcomes are modelled with `Except`.
-/

/-- The six shaping parameters of one ISO table entry, in the source's tuple
order `(intensity, size, roughness, color_influence, luma_influence,
chroma_bias)` (line 34). -/
structure IsoParameters where
  intensity : ℚ
  size : ℚ
  roughness : ℚ
  color_influence : ℚ
  luma_influence : ℚ
  chroma_bias : ℚ
deriving DecidableEq, Repr

/-- The `GRAIN_PARAMETERS` dict (lines 35-60), as an association list in the
source's key order. -/
def GRAIN_PARAMETERS : List (String × IsoParameters) :=
  [ ("80", ⟨0.08, 0.32, 0.60, 0.03, 0.95, 0.02⟩),
    ("100", ⟨0.10, 0.35, 0.62, 0.04, 0.94, 0.03⟩),
    ("200", ⟨0.15, 0.40, 0.65, 0.05, 0.92, 0.04⟩),
    ("400", ⟨0.22, 0.45, 0.68, 0.07, 0.90, 0.06⟩),
    ("800", ⟨0.35, 0.52, 0.72, 0.09, 0.87, 0.08⟩),
    ("1600", ⟨0.48, 0.58, 0.76, 0.12, 0.83, 0.11⟩),
    ("3200", ⟨0.65, 0.64, 0.80, 0.16, 0.78, 0.15⟩),
    ("6400", ⟨0.85, 0.70, 0.84, 0.21, 0.72, 0.20⟩),
    ("12800", ⟨1.15, 0.78, 0.88, 0.28, 0.65, 0.26⟩),
    ("25600", ⟨1.40, 0.84, 0.92, 0.36, 0.58, 0.32⟩),
    ("32000", ⟨1.65, 0.88, 0.94, 0.42, 0.52, 0.38⟩),
    ("64000", ⟨1.95, 0.92, 0.96, 0.48, 0.45, 0.46⟩),
    ("102400", ⟨2.30, 0.96, 0.98, 0.55, 0.38, 0.52⟩) ]

/-- The 13 known ISO identifiers, in increasing ISO order (the key order of
`GRAIN_PARAMETERS` and of `ISO_PRESETS`, lines 17-31). -/
def ISO_KEYS : List String :=
  GRAIN_PARAMETERS.map Prod.fst

/-- The `"800"` entry `(0.35, 0.52, 0.72, 0.09, 0.87, 0.08)` (line 45),
the fallback value of `GRAIN_PARAMETERS["800"]` used on lookup miss. -/
def params800 : IsoParameters :=
  ⟨0.35, 0.52, 0.72, 0.09, 0.87, 0.08⟩

/-- `GRAIN_PARAMETERS.get(iso, GRAIN_PARAMETERS["800"])` (line 104): table
lookup with silent fallback to the `"800"` entry.  Total by construction. -/
def isoLookup (iso : String) : IsoParameters :=
  match GRAIN_PARAMETERS.lookup iso with
  | some p => p
  | none => params800

/-- A `height × width` grid of values: a list of `height` rows, each a list
of `width` rationals (the shape numpy gives `np.random.normal(0, 1,
(height, width))`). -/
abbrev Grid : Type := List (List ℚ)

/-- Elementwise scaling of a grid, modelling numpy array–scalar
broadcasting. -/
def gridMap (f : ℚ → ℚ) (g : Grid) : Grid :=
  g.map (fun row => row.map f)

/-- Total number of scalar elements in a grid (numpy's `arr.size`). -/
def gridElems (g : Grid) : ℕ :=
  (g.map List.length).sum

/-- A deterministic mixing function on (seed, position); its exact values are
irrelevant, it only has to be a fixed function so that the modelled stream is
reproducible. -/
def mixRand (s n : ℕ) : ℕ :=
  (s + 1) * 2654435761 + n * 1103515245 + s * n

/-- The value the modelled generator produces at position `n` of the stream
seeded with `s`: a fixed pseudo-random rational in `(-1, 1)` with odd
numerator over 1000, hence never zero (abstracting `np.random.normal`'s
almost-surely-nonzero samples). -/
def stdNormal (s n : ℕ) : ℚ :=
  ((2 * (mixRand s n % 1000) + 1 : ℕ) : ℚ) / 1000 - 1

/-- State of numpy's process-wide legacy generator: the seed value it was
last seeded with and the current position in its value stream. -/
structure NpState where
  sv : ℕ
  pos : ℕ
deriving DecidableEq, Repr

/-- The error outcomes of the modelled numpy calls: `TypeError` from
`np.random.seed` on non-integral numeric input, `ValueError` from
`np.random.seed` on an integer outside `[0, 2^32 - 1]`, and `ValueError`
("negative dimensions are not allowed") from `np.random.normal`. -/
inductive NpErr where
  | seedTypeError : NpErr
  | seedValueError : NpErr
  | invalidDimension : NpErr
deriving DecidableEq, Repr

/-- `np.random.seed(seed)` (line 107): legacy seeding.  Accepts integers in
`[0, 2^32 - 1]` (yielding the new generator seed value), raises `ValueError`
outside that range, `TypeError` for non-integral numeric input.  No
normalization of out-of-range values is performed. -/
def npRandomSeed (seed : ℚ) : Except NpErr ℕ :=
  if seed.den ≠ 1 then .error .seedTypeError
  else if seed.num < 0 ∨ (2 ^ 32 : ℤ) ≤ seed.num then .error .seedValueError
  else .ok seed.num.toNat

/-- The `height × width` block of stream values starting at position `pos`
of the stream seeded with `sv`, read row-major (row `i`, column `j` holds
stream position `pos + i*width + j`). -/
def streamGrid (sv pos w h : ℕ) : Grid :=
  (List.range h).map (fun i => (List.range w).map (fun j => stdNormal sv (pos + (i * w + j))))

/-- `np.random.normal(0, 1, (height, width))` (lines 112-117) acting on the
modelled generator state: raises `ValueError` if a dimension is negative,
otherwise returns the next `height*width` stream values as a grid and
advances the stream position. -/
def npRandomNormal (st : NpState) (w h : ℤ) : Except NpErr (Grid × NpState) :=
  if w < 0 ∨ h < 0 then .error .invalidDimension
  else .ok (streamGrid st.sv st.pos w.toNat h.toNat, ⟨st.sv, st.pos + w.toNat * h.toNat⟩)

/-- The noise bundle returned by `generate_pattern` (lines 119-127). -/
structure NoiseField where
  luma : Grid
  red : Grid
  green : Grid
  blue : Grid
  size : ℚ
  roughness : ℚ
  chroma_bias : ℚ
deriving DecidableEq, Repr

/-- `FX30GrainPattern(iso, seed).generate_pattern(width, height)`
(lines 100-127), with the parameter resolution `GRAIN_PARAMETERS.get(iso,
GRAIN_PARAMETERS["800"])` done in `__init__` folded in (it is a pure lookup,
so resolving at construction or generation time is equivalent).  The call
runs against the process-wide generator state `g`: it reseeds that state
from `seed`, draws the four blocks in order luma, red, green, blue, scales
them as the source does, and returns the bundle together with the
process-wide state left behind. -/
def generate_pattern (iso : String) (seed : ℚ) (w h : ℤ) (g : NpState) :
    Except NpErr (NoiseField × NpState) := do
  let sv ← npRandomSeed seed
  let g0 : NpState := ⟨sv, 0⟩
  let p := isoLookup iso
  let (luma_noise, g1) ← npRandomNormal g0 w h
  let (r_raw, g2) ← npRandomNormal g1 w h
  let (g_raw, g3) ← npRandomNormal g2 w h
  let (b_raw, g4) ← npRandomNormal g3 w h
  let r_noise := gridMap (fun x => x * p.color_influence * 1.2) r_raw
  let g_noise := gridMap (fun x => x * p.color_influence * 0.8) g_raw
  let b_noise := gridMap (fun x => x * p.color_influence * 1.4) b_raw
  return ({ luma := gridMap (fun x => x * p.intensity * p.luma_influence) luma_noise
            red := gridMap (fun x => x * p.intensity * (1 - p.luma_influence)) r_noise
            green := gridMap (fun x => x * p.intensity * (1 - p.luma_influence)) g_noise
            blue := gridMap (fun x => x * p.intensity * (1 - p.luma_influence)) b_noise
            size := p.size
            roughness := p.roughness
            chroma_bias := p.chroma_bias }, g4)

/-- Sum of the absolute values of a grid's elements
(`np.sum(np.abs(arr))`). -/
def sumAbs (g : Grid) : ℚ :=
  (g.map (fun row => (row.map (fun x => |x|)).sum)).sum

/-- Mean absolute value of a grid's elements (`np.mean(np.abs(arr))`);
division by the element count, so `0` on an empty grid by `ℚ` convention. -/
def meanAbs (g : Grid) : ℚ :=
  sumAbs g / (gridElems g : ℚ)

theorem npRandomSeed_natCast (sv : ℕ) (hsv : sv < 2 ^ 32) :
    npRandomSeed (sv : ℚ) = .ok sv := by
  have hden : ((sv : ℚ)).den = 1 := Rat.den_natCast sv
  have hnum : ((sv : ℚ)).num = (sv : ℤ) := Rat.num_natCast sv
  simp only [npRandomSeed, hden, hnum, ne_eq, not_true_eq_false, if_false]
  rw [if_neg, Int.toNat_natCast]
  push_neg
  exact ⟨Int.natCast_nonneg sv, by exact_mod_cast hsv⟩

theorem npRandomNormal_natCast (st : NpState) (w h : ℕ) :
    npRandomNormal st (w : ℤ) (h : ℤ) =
      .ok (streamGrid st.sv st.pos w h, ⟨st.sv, st.pos + w * h⟩) := by
  simp [npRandomNormal]

/-- Closed form of a successful `generate_pattern` call: with an in-range
integer seed and natural dimensions, the call succeeds, the four raw blocks
are consecutive `w*h`-element slices of the reseeded stream (luma first,
then red, green, blue), each output grid is the source's elementwise
scaling of its block, and the process-wide generator is left reseeded at
position `4*w*h`. -/
theorem generate_pattern_ok (iso : String) (sv w h : ℕ) (g : NpState)
    (hsv : sv < 2 ^ 32) :
    generate_pattern iso (sv : ℚ) (w : ℤ) (h : ℤ) g =
      .ok
        ({ luma := gridMap
              (fun x => x * (isoLookup iso).intensity * (isoLookup iso).luma_influence)
              (streamGrid sv 0 w h)
           red := gridMap
              (fun x => x * (isoLookup iso).intensity * (1 - (isoLookup iso).luma_influence))
              (gridMap (fun x => x * (isoLookup iso).color_influence * 1.2)
                (streamGrid sv (w * h) w h))
           green := gridMap
              (fun x => x * (isoLookup iso).intensity * (1 - (isoLookup iso).luma_influence))
              (gridMap (fun x => x * (isoLookup iso).color_influence * 0.8)
                (streamGrid sv (w * h + w * h) w h))
           blue := gridMap
              (fun x => x * (isoLookup iso).intensity * (1 - (isoLookup iso).luma_influence))
              (gridMap (fun x => x * (isoLookup iso).color_influence * 1.4)
                (streamGrid sv (w * h + w * h + w * h) w h))
           size := (isoLookup iso).size
           roughness := (isoLookup iso).roughness
           chroma_bias := (isoLookup iso).chroma_bias },
         ⟨sv, w * h + w * h + w * h + w * h⟩) := by
  simp [generate_pattern, npRandomSeed_natCast sv hsv, npRandomNormal_natCast, bind,
    Except.bind, pure, Except.pure]

theorem mem_of_lookup_eq_some {α β : Type} [BEq α] [LawfulBEq α]
    {l : List (α × β)} {a : α} {b : β} (h : l.lookup a = some b) : (a, b) ∈ l := by
  induction l with
  | nil => simp [List.lookup] at h
  | cons hd tl ih =>
    obtain ⟨k, v⟩ := hd
    rw [List.lookup_cons] at h
    cases hbeq : (a == k) with
    | true =>
      rw [hbeq] at h
      simp only [Option.some.injEq] at h
      have hak : a = k := eq_of_beq hbeq
      subst hak
      subst h
      exact List.mem_cons_self _ _
    | false =>
      rw [hbeq] at h
      exact List.mem_cons_of_mem _ (ih h)

theorem gridElems_gridMap (f : ℚ → ℚ) (g : Grid) :
    gridElems (gridMap f g) = gridElems g := by
  unfold gridElems gridMap
  rw [List.map_map]
  apply congrArg
  apply List.map_congr_left
  intro row _
  simp

theorem gridElems_streamGrid (sv pos w h : ℕ) :
    gridElems (streamGrid sv pos w h) = h * w := by
  simp only [gridElems, streamGrid, List.map_map, Function.comp]
  have hconst : ∀ i : ℕ, ((List.range w).map (fun j => stdNormal sv (pos + (i * w + j)))).length = w := by
    intro i
    simp
  calc ((List.range h).map
          (fun i => ((List.range w).map (fun j => stdNormal sv (pos + (i * w + j)))).length)).sum
      = ((List.range h).map (fun _ => w)).sum := by
        apply congrArg
        exact List.map_congr_left (fun i _ => hconst i)
    _ = h * w := by
        rw [List.map_const']
        simp [List.sum_replicate, smul_eq_mul]

theorem stdNormal_ne_zero (s n : ℕ) : stdNormal s n ≠ 0 := by
  unfold stdNormal
  intro heq
  rw [sub_eq_zero] at heq
  rw [div_eq_one_iff_eq (by norm_num)] at heq
  have hnat : 2 * (mixRand s n % 1000) + 1 = 1000 := by exact_mod_cast heq
  omega

theorem sumAbs_map_mul (c : ℚ) (l : List ℚ) :
    ((l.map (fun x => x * c)).map (fun x => |x|)).sum = |c| * (l.map (fun x => |x|)).sum := by
  induction l with
  | nil => simp
  | cons a t ih =>
    simp only [List.map_cons, List.sum_cons, ih, abs_mul]
    ring

theorem sumAbs_gridMap_mul (c : ℚ) (g : Grid) :
    sumAbs (gridMap (fun x => x * c) g) = |c| * sumAbs g := by
  induction g with
  | nil => simp [sumAbs, gridMap]
  | cons row t ih =>
    simp only [sumAbs, gridMap, List.map_cons, List.sum_cons] at ih ⊢
    rw [sumAbs_map_mul, ih]
    ring

theorem meanAbs_gridMap_mul (c : ℚ) (g : Grid) :
    meanAbs (gridMap (fun x => x * c) g) = |c| * meanAbs g := by
  unfold meanAbs
  rw [sumAbs_gridMap_mul, gridElems_gridMap, mul_div_assoc]

theorem sumAbs_streamGrid_pos (sv pos w h : ℕ) (hw : 0 < w) (hh : 0 < h) :
    0 < sumAbs (streamGrid sv pos w h) := by
  have hx : 0 < |stdNormal sv (pos + (0 * w + 0))| :=
    abs_pos.mpr (stdNormal_ne_zero sv (pos + (0 * w + 0)))
  have habs : ∀ x ∈ ((List.range w).map
      (fun j => stdNormal sv (pos + (0 * w + j)))).map (fun x => |x|), (0:ℚ) ≤ x := by
    intro x hxm
    obtain ⟨y, hy, rfl⟩ := List.mem_map.mp hxm
    exact abs_nonneg y
  have hmem1 : |stdNormal sv (pos + (0 * w + 0))| ∈
      ((List.range w).map (fun j => stdNormal sv (pos + (0 * w + j)))).map (fun x => |x|) :=
    List.mem_map_of_mem _ (List.mem_map_of_mem _ (List.mem_range.mpr hw))
  have hrow := List.single_le_sum habs _ hmem1
  have houtnn : ∀ x ∈ (streamGrid sv pos w h).map
      (fun row => (row.map (fun x => |x|)).sum), (0:ℚ) ≤ x := by
    intro x hxm
    obtain ⟨row, hrowm, rfl⟩ := List.mem_map.mp hxm
    refine List.sum_nonneg ?_
    intro y hym
    obtain ⟨z, hz, rfl⟩ := List.mem_map.mp hym
    exact abs_nonneg z
  have hmem2 : (((List.range w).map
      (fun j => stdNormal sv (pos + (0 * w + j)))).map (fun x => |x|)).sum ∈
      (streamGrid sv pos w h).map (fun row => (row.map (fun x => |x|)).sum) := by
    unfold streamGrid
    exact List.mem_map_of_mem _ (List.mem_map_of_mem _ (List.mem_range.mpr hh))
  have houter := List.single_le_sum houtnn _ hmem2
  have hfin : (0:ℚ) <
      ((streamGrid sv pos w h).map (fun row => (row.map (fun x => |x|)).sum)).sum :=
    lt_of_lt_of_le (lt_of_lt_of_le hx hrow) houter
  simpa [sumAbs] using hfin

theorem meanAbs_streamGrid_pos (sv pos w h : ℕ) (hw : 0 < w) (hh : 0 < h) :
    0 < meanAbs (streamGrid sv pos w h) := by
  unfold meanAbs
  rw [gridElems_streamGrid]
  apply div_pos (sumAbs_streamGrid_pos sv pos w h hw hh)
  have : 0 < h * w := Nat.mul_pos hh hw
  exact_mod_cast this

theorem lookup_none_of_not_mem_keys (iso : String) (h : iso ∉ ISO_KEYS) :
    GRAIN_PARAMETERS.lookup iso = none := by
  cases hl : GRAIN_PARAMETERS.lookup iso with
  | none => rfl
  | some p =>
    exfalso
    exact h (List.mem_map_of_mem Prod.fst (mem_of_lookup_eq_some hl))

theorem isoLookup_800 : isoLookup "800" = params800 := by
  simp [isoLookup, GRAIN_PARAMETERS, params800, List.lookup]

theorem isoLookup_pos (iso : String) :
    0 < (isoLookup iso).intensity ∧ 0 < (isoLookup iso).luma_influence := by
  unfold isoLookup
  cases hl : GRAIN_PARAMETERS.lookup iso with
  | none => norm_num [params800]
  | some p =>
    have hmem : (iso, p) ∈ GRAIN_PARAMETERS := mem_of_lookup_eq_some hl
    simp only [GRAIN_PARAMETERS, List.mem_cons, List.not_mem_nil, or_false] at hmem
    rcases hmem with h | h | h | h | h | h | h | h | h | h | h | h | h <;>
      · rw [(Prod.mk.injEq _ _ _ _).mp h |>.2]
        norm_num

/-- C4: lookup of any identifier that is not one of the 13 known keys does
not fail (isoLookup is a total function by construction, with no state to
mutate) and returns exactly the `IsoParameters` that lookup of `"800"`
returns. -/
theorem C4_unknown_iso_falls_back_to_800 (iso : String) (h : iso ∉ ISO_KEYS) :
    isoLookup iso = isoLookup "800" := by
  rw [isoLookup_800]
  unfold isoLookup
  rw [lookup_none_of_not_mem_keys iso h]

theorem C4_witness :
    "not-a-real-iso" ∉ ISO_KEYS ∧ isoLookup "not-a-real-iso" = isoLookup "800" := by
  have hnm : "not-a-real-iso" ∉ ISO_KEYS := by
    simp [ISO_KEYS, GRAIN_PARAMETERS]
  exact ⟨hnm, C4_unknown_iso_falls_back_to_800 "not-a-real-iso" hnm⟩

/-- C5: over the 13 table entries in the source's key order — which is the
order of increasing ISO value 80, 100, ..., 102400 — `intensity`, `size`,
`roughness`, `color_influence` and `chroma_bias` are monotonically
non-decreasing and `luma_influence` is monotonically non-increasing. -/
theorem C5_table_monotone :
    ISO_KEYS = ["80", "100", "200", "400", "800", "1600", "3200", "6400",
      "12800", "25600", "32000", "64000", "102400"] ∧
    List.Chain' (· ≤ ·) (GRAIN_PARAMETERS.map (fun e => e.2.intensity)) ∧
    List.Chain' (· ≤ ·) (GRAIN_PARAMETERS.map (fun e => e.2.size)) ∧
    List.Chain' (· ≤ ·) (GRAIN_PARAMETERS.map (fun e => e.2.roughness)) ∧
    List.Chain' (· ≤ ·) (GRAIN_PARAMETERS.map (fun e => e.2.color_influence)) ∧
    List.Chain' (· ≤ ·) (GRAIN_PARAMETERS.map (fun e => e.2.chroma_bias)) ∧
    List.Chain' (· ≥ ·) (GRAIN_PARAMETERS.map (fun e => e.2.luma_influence)) := by
  refine ⟨by simp [ISO_KEYS, GRAIN_PARAMETERS], ?_, ?_, ?_, ?_, ?_, ?_⟩ <;>
    · norm_num [GRAIN_PARAMETERS, List.chain'_cons]

/-- C1: for every valid argument tuple — any ISO identifier, an integer seed
in the generator's native range, natural dimensions — two `generate_pattern`
calls with identical arguments, run against arbitrary (possibly different)
prior states of the process-wide generator, both succeed and produce the
very same `NoiseField` (all four grids and all three scalars equal). -/
theorem C1_generate_deterministic (iso : String) (sv w h : ℕ) (g1 g2 : NpState)
    (hsv : sv < 2 ^ 32) :
    ∃ f st1 st2,
      generate_pattern iso (sv : ℚ) (w : ℤ) (h : ℤ) g1 = .ok (f, st1) ∧
      generate_pattern iso (sv : ℚ) (w : ℤ) (h : ℤ) g2 = .ok (f, st2) :=
  ⟨_, _, _, generate_pattern_ok iso sv w h g1 hsv, generate_pattern_ok iso sv w h g2 hsv⟩

theorem C1_witness :
    (1:ℕ) < 2 ^ 32 ∧
    ∃ f st1 st2,
      generate_pattern "800" ((1:ℕ) : ℚ) ((2:ℕ) : ℤ) ((2:ℕ) : ℤ) ⟨5, 7⟩ = .ok (f, st1) ∧
      generate_pattern "800" ((1:ℕ) : ℚ) ((2:ℕ) : ℤ) ((2:ℕ) : ℤ) ⟨0, 0⟩ = .ok (f, st2) :=
  ⟨by norm_num, C1_generate_deterministic "800" 1 2 2 ⟨5, 7⟩ ⟨0, 0⟩ (by norm_num)⟩

/-- C8 (counterexample to the claim as stated): `generate_pattern` is not
free of side effects on the process-wide generator: a concrete call, run
from global state ⟨5, 7⟩, leaves the global state reseeded to seed value 1
and advanced to stream position 4 — a different state than it started in.
(The source reseeds the shared `np.random` generator and draws from it.) -/
theorem C8_counterexample :
    (generate_pattern "800" ((1:ℕ) : ℚ) ((1:ℕ) : ℤ) ((1:ℕ) : ℤ) ⟨5, 7⟩).map Prod.snd =
      .ok ⟨1, 4⟩ ∧ (⟨1, 4⟩ : NpState) ≠ ⟨5, 7⟩ := by
  constructor
  · rw [generate_pattern_ok "800" 1 1 1 ⟨5, 7⟩ (by norm_num)]
    simp [Except.map]
  · intro hco
    cases hco

/-- C8 (amended): `generate_pattern` does mutate the process-wide generator
state, but its entire result — the noise field and even the final generator
state — is a function of its arguments alone: the prior global state is
discarded by the reseeding, so no invocation's output can depend on another
invocation's call order. -/
theorem C8_result_independent_of_prior_state (iso : String) (seed : ℚ) (w h : ℤ)
    (g g' : NpState) :
    generate_pattern iso seed w h g = generate_pattern iso seed w h g' := rfl

/-- C2 (counterexample to the claim as stated): at ISO "800", seed 1, a 1×1
field, the red output grid is NOT the raw draw times only the three factors
1.2, intensity and (1 − luma_influence): the code multiplies by
`color_influence` (0.09 at ISO "800") as well. -/
theorem C2_counterexample :
    ∃ f st,
      generate_pattern "800" ((1:ℕ) : ℚ) ((1:ℕ) : ℤ) ((1:ℕ) : ℤ) ⟨0, 0⟩ = .ok (f, st) ∧
      f.red ≠ gridMap
        (fun x => x * 1.2 * (isoLookup "800").intensity * (1 - (isoLookup "800").luma_influence))
        (streamGrid 1 (1 * 1) 1 1) := by
  refine ⟨_, _, generate_pattern_ok "800" 1 1 1 ⟨0, 0⟩ (by norm_num), ?_⟩
  rw [isoLookup_800]
  norm_num [gridMap, streamGrid, stdNormal, mixRand, params800, List.range_succ]

/-- C2 (amended): each color output grid equals the corresponding raw
standard-normal block multiplied by exactly the four factors
`color_influence`, the channel weight (1.2 red / 0.8 green / 1.4 blue),
`intensity`, and `(1 - luma_influence)` of the resolved parameters. -/
theorem C2_channel_scaling (iso : String) (sv w h : ℕ) (g : NpState)
    (hsv : sv < 2 ^ 32) :
    ∃ f st,
      generate_pattern iso (sv : ℚ) (w : ℤ) (h : ℤ) g = .ok (f, st) ∧
      f.red = gridMap
        (fun x => x * (isoLookup iso).color_influence * 1.2 *
          (isoLookup iso).intensity * (1 - (isoLookup iso).luma_influence))
        (streamGrid sv (w * h) w h) ∧
      f.green = gridMap
        (fun x => x * (isoLookup iso).color_influence * 0.8 *
          (isoLookup iso).intensity * (1 - (isoLookup iso).luma_influence))
        (streamGrid sv (w * h + w * h) w h) ∧
      f.blue = gridMap
        (fun x => x * (isoLookup iso).color_influence * 1.4 *
          (isoLookup iso).intensity * (1 - (isoLookup iso).luma_influence))
        (streamGrid sv (w * h + w * h + w * h) w h) := by
  refine ⟨_, _, generate_pattern_ok iso sv w h g hsv, ?_, ?_, ?_⟩ <;>
    simp [gridMap, List.map_map, Function.comp]

theorem C2_witness :
    (1:ℕ) < 2 ^ 32 ∧
    ∃ f st,
      generate_pattern "1600" ((1:ℕ) : ℚ) ((2:ℕ) : ℤ) ((1:ℕ) : ℤ) ⟨0, 0⟩ = .ok (f, st) ∧
      f.red = gridMap
        (fun x => x * (isoLookup "1600").color_influence * 1.2 *
          (isoLookup "1600").intensity * (1 - (isoLookup "1600").luma_influence))
        (streamGrid 1 (2 * 1) 2 1) ∧
      f.green = gridMap
        (fun x => x * (isoLookup "1600").color_influence * 0.8 *
          (isoLookup "1600").intensity * (1 - (isoLookup "1600").luma_influence))
        (streamGrid 1 (2 * 1 + 2 * 1) 2 1) ∧
      f.blue = gridMap
        (fun x => x * (isoLookup "1600").color_influence * 1.4 *
          (isoLookup "1600").intensity * (1 - (isoLookup "1600").luma_influence))
        (streamGrid 1 (2 * 1 + 2 * 1 + 2 * 1) 2 1) :=
  ⟨by norm_num, C2_channel_scaling "1600" 1 2 1 ⟨0, 0⟩ (by norm_num)⟩

/-- C3: the luma output grid equals the raw standard-normal luminance block
(the first `w*h` stream values after reseeding) multiplied by `intensity *
luma_influence` of the resolved parameters, and the returned `size`,
`roughness` and `chroma_bias` scalars are those of the resolved parameters
unchanged. -/
theorem C3_luma_scaling_and_passthrough (iso : String) (sv w h : ℕ) (g : NpState)
    (hsv : sv < 2 ^ 32) :
    ∃ f st,
      generate_pattern iso (sv : ℚ) (w : ℤ) (h : ℤ) g = .ok (f, st) ∧
      f.luma = gridMap
        (fun x => x * (isoLookup iso).intensity * (isoLookup iso).luma_influence)
        (streamGrid sv 0 w h) ∧
      f.size = (isoLookup iso).size ∧
      f.roughness = (isoLookup iso).roughness ∧
      f.chroma_bias = (isoLookup iso).chroma_bias :=
  ⟨_, _, generate_pattern_ok iso sv w h g hsv, rfl, rfl, rfl, rfl⟩

theorem C3_witness :
    (7:ℕ) < 2 ^ 32 ∧
    ∃ f st,
      generate_pattern "3200" ((7:ℕ) : ℚ) ((2:ℕ) : ℤ) ((3:ℕ) : ℤ) ⟨0, 0⟩ = .ok (f, st) ∧
      f.luma = gridMap
        (fun x => x * (isoLookup "3200").intensity * (isoLookup "3200").luma_influence)
        (streamGrid 7 0 2 3) ∧
      f.size = (isoLookup "3200").size ∧
      f.roughness = (isoLookup "3200").roughness ∧
      f.chroma_bias = (isoLookup "3200").chroma_bias :=
  ⟨by norm_num, C3_luma_scaling_and_passthrough "3200" 7 2 3 ⟨0, 0⟩ (by norm_num)⟩

theorem gridMap_gridMap (f g : ℚ → ℚ) (gr : Grid) :
    gridMap f (gridMap g gr) = gridMap (fun x => f (g x)) gr := by
  simp [gridMap, List.map_map, Function.comp]

/-- C6: with a valid seed, a `generate_pattern` call whose width or height is
zero (the other being non-negative) succeeds and returns a field whose four
grids contain no elements, while a call with a negative width or height
fails with the invalid-dimension error instead of returning a field. -/
theorem C6_dimension_edge_cases (iso : String) (sv : ℕ) (w h : ℤ) (g : NpState)
    (hsv : sv < 2 ^ 32) :
    (0 ≤ w → 0 ≤ h → (w = 0 ∨ h = 0) →
      ∃ f st, generate_pattern iso (sv : ℚ) w h g = .ok (f, st) ∧
        gridElems f.luma = 0 ∧ gridElems f.red = 0 ∧
        gridElems f.green = 0 ∧ gridElems f.blue = 0) ∧
    (w < 0 ∨ h < 0 →
      generate_pattern iso (sv : ℚ) w h g = .error .invalidDimension) := by
  constructor
  · intro hw hh hzero
    obtain ⟨wn, rfl⟩ := Int.eq_ofNat_of_zero_le hw
    obtain ⟨hn, rfl⟩ := Int.eq_ofNat_of_zero_le hh
    have hz : wn = 0 ∨ hn = 0 := by
      rcases hzero with h0 | h0
      · left; exact_mod_cast h0
      · right; exact_mod_cast h0
    refine ⟨_, _, generate_pattern_ok iso sv wn hn g hsv, ?_, ?_, ?_, ?_⟩ <;>
      · simp only [gridElems_gridMap, gridElems_streamGrid]
        rcases hz with h0 | h0 <;> simp [h0]
  · intro hneg
    have hfail : ∀ st : NpState, npRandomNormal st w h = .error .invalidDimension := by
      intro st
      unfold npRandomNormal
      rw [if_pos hneg]
    simp [generate_pattern, npRandomSeed_natCast sv hsv, hfail, bind, Except.bind]

theorem C6_witness :
    (1:ℕ) < 2 ^ 32 ∧
    (∃ f st, generate_pattern "800" ((1:ℕ) : ℚ) 0 3 ⟨0, 0⟩ = .ok (f, st) ∧
      gridElems f.luma = 0 ∧ gridElems f.red = 0 ∧
      gridElems f.green = 0 ∧ gridElems f.blue = 0) ∧
    generate_pattern "800" ((1:ℕ) : ℚ) (-1) 3 ⟨0, 0⟩ = .error .invalidDimension :=
  ⟨by norm_num,
   (C6_dimension_edge_cases "800" 1 0 3 ⟨0, 0⟩ (by norm_num)).1 (by norm_num) (by norm_num)
     (Or.inl rfl),
   (C6_dimension_edge_cases "800" 1 (-1) 3 ⟨0, 0⟩ (by norm_num)).2 (Or.inl (by norm_num))⟩

/-- C7 (counterexample to the claim as stated): the representable integer
seed `2^32` is not normalized into the generator's native range — the call
fails with the seed-range `ValueError` instead of succeeding (the source
passes the seed to `np.random.seed` unmodified, and an error is raised for
numeric input, not only for non-numeric input). -/
theorem C7_counterexample :
    generate_pattern "800" (4294967296 : ℚ) ((1:ℕ) : ℤ) ((1:ℕ) : ℤ) ⟨0, 0⟩ =
      .error .seedValueError := by
  have hs : npRandomSeed (4294967296 : ℚ) = .error .seedValueError := by
    unfold npRandomSeed
    rw [Rat.den_ofNat, Rat.num_ofNat]
    norm_num
  simp [generate_pattern, hs, bind, Except.bind]

/-- C7 (amended): `generate_pattern` succeeds for every integer seed inside
the generator's native range `[0, 2^32)`; seeds outside that range, or
non-integral numeric seeds, signal an error — no normalization (modulo or
hashing) is applied. -/
theorem C7_seed_in_native_range_ok (s : ℚ) (hden : s.den = 1) (h0 : 0 ≤ s.num)
    (hlt : s.num < 2 ^ 32) (iso : String) (w h : ℕ) (g : NpState) :
    ∃ f st, generate_pattern iso s (w : ℤ) (h : ℤ) g = .ok (f, st) := by
  have h1 : ((s.num.toNat : ℕ) : ℚ) = ((s.num : ℤ) : ℚ) := by
    exact_mod_cast congrArg (fun z : ℤ => (z : ℚ)) (Int.toNat_of_nonneg h0)
  have hs : s = ((s.num.toNat : ℕ) : ℚ) := by
    rw [h1, Rat.den_eq_one_iff s |>.mp hden]
  have h2 : (2:ℤ) ^ 32 = 4294967296 := by norm_num
  rw [h2] at hlt
  have hsv : s.num.toNat < 2 ^ 32 := by
    have h3 : (2:ℕ) ^ 32 = 4294967296 := by norm_num
    rw [h3]
    omega
  rw [hs]
  exact ⟨_, _, generate_pattern_ok iso s.num.toNat w h g hsv⟩

theorem C7_witness :
    ((5:ℚ).den = 1 ∧ 0 ≤ (5:ℚ).num ∧ (5:ℚ).num < 2 ^ 32) ∧
    ∃ f st, generate_pattern "80" (5 : ℚ) ((1:ℕ) : ℤ) ((1:ℕ) : ℤ) ⟨0, 0⟩ = .ok (f, st) := by
  have hden : (5:ℚ).den = 1 := by norm_num
  have hnum : (5:ℚ).num = 5 := by norm_num
  refine ⟨⟨hden, by rw [hnum]; norm_num, by rw [hnum]; norm_num⟩, ?_⟩
  exact C7_seed_in_native_range_ok 5 hden (by rw [hnum]; norm_num) (by rw [hnum]; norm_num)
    "80" 1 1 ⟨0, 0⟩

theorem gridMap_mul_assoc (a b : ℚ) (gr : Grid) :
    gridMap (fun x => x * a * b) gr = gridMap (fun x => x * (a * b)) gr := by
  simp [gridMap, mul_assoc]

/-- C9: for a fixed in-range seed and fixed positive dimensions, the mean
absolute value of the luma output grid at ISO "102400" is strictly greater
than at ISO "80", and at ISO "3200" it is at least 5 times the value at
ISO "80" (intensity*luma_influence products: 0.076 at "80", 0.507 at
"3200", 0.874 at "102400"). -/
theorem C9_luma_mean_ordering (sv w h : ℕ) (g : NpState) (hsv : sv < 2 ^ 32)
    (hw : 0 < w) (hh : 0 < h) :
    ∃ f80 f3200 f102400 st1 st2 st3,
      generate_pattern "80" (sv : ℚ) (w : ℤ) (h : ℤ) g = .ok (f80, st1) ∧
      generate_pattern "3200" (sv : ℚ) (w : ℤ) (h : ℤ) g = .ok (f3200, st2) ∧
      generate_pattern "102400" (sv : ℚ) (w : ℤ) (h : ℤ) g = .ok (f102400, st3) ∧
      meanAbs f80.luma < meanAbs f102400.luma ∧
      5 * meanAbs f80.luma ≤ meanAbs f3200.luma := by
  have e80 : isoLookup "80" = ⟨0.08, 0.32, 0.60, 0.03, 0.95, 0.02⟩ := by
    simp [isoLookup, GRAIN_PARAMETERS, List.lookup]
  have e3200 : isoLookup "3200" = ⟨0.65, 0.64, 0.80, 0.16, 0.78, 0.15⟩ := by
    simp [isoLookup, GRAIN_PARAMETERS, List.lookup]
  have e102400 : isoLookup "102400" = ⟨2.30, 0.96, 0.98, 0.55, 0.38, 0.52⟩ := by
    simp [isoLookup, GRAIN_PARAMETERS, List.lookup]
  have hM : 0 < meanAbs (streamGrid sv 0 w h) := meanAbs_streamGrid_pos sv 0 w h hw hh
  refine ⟨_, _, _, _, _, _, generate_pattern_ok "80" sv w h g hsv,
    generate_pattern_ok "3200" sv w h g hsv,
    generate_pattern_ok "102400" sv w h g hsv, ?_, ?_⟩
  · rw [e80, e102400]
    dsimp only
    rw [gridMap_mul_assoc, gridMap_mul_assoc, meanAbs_gridMap_mul, meanAbs_gridMap_mul]
    rw [show |((0.08 : ℚ) * 0.95)| = (0.08 : ℚ) * 0.95 from abs_of_pos (by norm_num),
      show |((2.30 : ℚ) * 0.38)| = (2.30 : ℚ) * 0.38 from abs_of_pos (by norm_num)]
    nlinarith [hM]
  · rw [e80, e3200]
    dsimp only
    rw [gridMap_mul_assoc, gridMap_mul_assoc, meanAbs_gridMap_mul, meanAbs_gridMap_mul]
    rw [show |((0.08 : ℚ) * 0.95)| = (0.08 : ℚ) * 0.95 from abs_of_pos (by norm_num),
      show |((0.65 : ℚ) * 0.78)| = (0.65 : ℚ) * 0.78 from abs_of_pos (by norm_num)]
    nlinarith [hM]

theorem C9_witness :
    ((1:ℕ) < 2 ^ 32 ∧ 0 < 2 ∧ 0 < 3) ∧
    ∃ f80 f3200 f102400 st1 st2 st3,
      generate_pattern "80" ((1:ℕ) : ℚ) ((2:ℕ) : ℤ) ((3:ℕ) : ℤ) ⟨0, 0⟩ = .ok (f80, st1) ∧
      generate_pattern "3200" ((1:ℕ) : ℚ) ((2:ℕ) : ℤ) ((3:ℕ) : ℤ) ⟨0, 0⟩ = .ok (f3200, st2) ∧
      generate_pattern "102400" ((1:ℕ) : ℚ) ((2:ℕ) : ℤ) ((3:ℕ) : ℤ) ⟨0, 0⟩ = .ok (f102400, st3) ∧
      meanAbs f80.luma < meanAbs f102400.luma ∧
      5 * meanAbs f80.luma ≤ meanAbs f3200.luma :=
  ⟨⟨by norm_num, by norm_num, by norm_num⟩,
   C9_luma_mean_ordering 1 2 3 ⟨0, 0⟩ (by norm_num) (by norm_num) (by norm_num)⟩

/-- C10: for a fixed in-range seed and fixed dimensions, the luma grids of
any two ISO identifiers are exact scalar multiples: the grid for `iso2`
equals the grid for `iso1` scaled elementwise by
`(intensity₂*luma_influence₂) / (intensity₁*luma_influence₁)` — changing
only the ISO rescales the luminance pattern without changing its spatial
structure (the raw draw depends only on the seed). -/
theorem C10_luma_scalar_ratio (iso1 iso2 : String) (sv w h : ℕ) (g1 g2 : NpState)
    (hsv : sv < 2 ^ 32) :
    ∃ f1 f2 st1 st2,
      generate_pattern iso1 (sv : ℚ) (w : ℤ) (h : ℤ) g1 = .ok (f1, st1) ∧
      generate_pattern iso2 (sv : ℚ) (w : ℤ) (h : ℤ) g2 = .ok (f2, st2) ∧
      f2.luma = gridMap
        (fun x => x * (((isoLookup iso2).intensity * (isoLookup iso2).luma_influence) /
          ((isoLookup iso1).intensity * (isoLookup iso1).luma_influence)))
        f1.luma := by
  obtain ⟨hi1, hl1⟩ := isoLookup_pos iso1
  have hne : (isoLookup iso1).intensity * (isoLookup iso1).luma_influence ≠ 0 :=
    ne_of_gt (mul_pos hi1 hl1)
  refine ⟨_, _, _, _, generate_pattern_ok iso1 sv w h g1 hsv,
    generate_pattern_ok iso2 sv w h g2 hsv, ?_⟩
  dsimp only
  rw [gridMap_gridMap]
  have hfun : (fun x : ℚ =>
        x * (isoLookup iso2).intensity * (isoLookup iso2).luma_influence) =
      (fun x : ℚ =>
        x * (isoLookup iso1).intensity * (isoLookup iso1).luma_influence *
          (((isoLookup iso2).intensity * (isoLookup iso2).luma_influence) /
            ((isoLookup iso1).intensity * (isoLookup iso1).luma_influence))) := by
    funext x
    field_simp
    ring
  rw [hfun]

theorem C10_witness :
    (1:ℕ) < 2 ^ 32 ∧
    ∃ f1 f2 st1 st2,
      generate_pattern "80" ((1:ℕ) : ℚ) ((2:ℕ) : ℤ) ((2:ℕ) : ℤ) ⟨3, 3⟩ = .ok (f1, st1) ∧
      generate_pattern "6400" ((1:ℕ) : ℚ) ((2:ℕ) : ℤ) ((2:ℕ) : ℤ) ⟨0, 0⟩ = .ok (f2, st2) ∧
      f2.luma = gridMap
        (fun x => x * (((isoLookup "6400").intensity * (isoLookup "6400").luma_influence) /
          ((isoLookup "80").intensity * (isoLookup "80").luma_influence)))
        f1.luma :=
  ⟨by norm_num, C10_luma_scalar_ratio "80" "6400" 1 2 2 ⟨3, 3⟩ ⟨0, 0⟩ (by norm_num)⟩
